import Mathlib

set_option maxRecDepth 8192

/-!
Verification development for the image-build orchestration core of
`wandb/sdk/launch/docker.py`.

The Python module is shallowly embedded: pure string-assembly functions become
Lean functions on `String` / `List Char`; calls to external collaborators (the
container engine, the JSON library on arbitrary input, the git metadata reader,
the host environment) become explicit parameters or oracles; filesystem and
process side effects are recorded as an explicit event trace; fallible code
returns `Except`.  Python `str` is modelled as `String` (with `List Char` for
character-level reasoning), Python dicts that are only iterated in insertion
order are modelled as association lists, and Python exceptions as the `PyExc`
inductive.
-/

/-- Python exception values that the embedded code can raise or catch.
`dockerError` models `wandb.errors.DockerError`, `valueError` models
`ValueError` (including `json.JSONDecodeError`), `launchError` models
`wandb.errors.LaunchError`; the remaining constructors model the builtin
exceptions that indexing and `os.remove` can raise. -/
inductive PyExc where
  | dockerError (msg : String)
  | valueError (msg : String)
  | indexError
  | keyError
  | typeError
  | launchError (msg : String)
  | isADirectoryError

/-- Parsed JSON values, as returned by `json.loads`.  Python represents a JSON
null as `None`, objects as dicts with string keys, arrays as lists. -/
inductive PyJson where
  | null
  | bool (b : Bool)
  | num (n : Int)
  | str (s : String)
  | arr (elems : List PyJson)
  | obj (fields : List (String × PyJson))

/-- Python subscripting `v[0]` on a parsed JSON value (`json.loads(data)[0]` in
`docker_image_exists`): succeeds on a nonempty list (first element) and on a
nonempty string (one-character string); raises `IndexError` on an empty list or
string, `KeyError` on a dict (JSON objects have string keys, so the integer key
`0` is absent), and `TypeError` on `None`, booleans and numbers. -/
def index0 : PyJson → Except PyExc PyJson
  | .arr [] => .error .indexError
  | .arr (x :: _) => .ok x
  | .str s =>
    match s.data with
    | [] => .error .indexError
    | c :: _ => .ok (.str (String.mk [c]))
  | .obj _ => .error .keyError
  | .null => .error .typeError
  | .bool _ => .error .typeError
  | .num _ => .error .typeError

/-- The module-level dict `_inspected_images`, mapping an image reference to
its parsed inspection record. -/
def Cache : Type := String → Option PyJson

/-- Filesystem / process side effects performed by the embedded functions,
recorded in order.  `probeBuildx` is the `docker.is_buildx_installed()` probe,
`statFile` an `os.path.exists` check, `readFile` opening and parsing a file,
`writeFile` writing `contents` to `path`. -/
inductive Event where
  | probeBuildx
  | statFile (path : String)
  | readFile (path : String)
  | writeFile (path : String) (contents : String)
deriving DecidableEq

/-- Dependency manager kind of a launch project, per the project descriptor:
`pip`, `conda`, or no dependency file found. -/
inductive DepsType where
  | pip
  | conda
  | nodeps
deriving DecidableEq

/-- The fields of `LaunchProject` that `docker.py` reads.  `docker_user_id = 0`
models a falsy (unset) `docker_user_id`, matching the Python truthiness test
`launch_project.docker_user_id or os.geteuid()`.  The override config and
artifact mappings appear only as their `json.dumps` encodings, which the code
treats opaquely. -/
structure LaunchProject where
  image_name : Option String
  run_id : String
  target_project : String
  target_entity : String
  docker_image : Option String
  deps_type : DepsType
  python_version : Option String
  cuda : Bool
  cuda_version : Option String
  docker_user_id : Nat
  project_dir : String

/-- Ambient host facts consulted while rendering: whether buildx is installed,
whether `requirements.frozen.txt` and `requirements.txt` exist in the project
directory, the package names the requirements parser extracts (already
lowercased, in set-iteration order, unparseable lines dropped), the interpreter
version running the tool (`get_current_python_version`), and the host user name
and effective uid. -/
structure BuildWorld where
  buildx : Bool
  frozenExists : Bool
  baseReqExists : Bool
  reqNames : List String
  currentPyVersion : String
  currentPyMajor : String
  username : String
  euid : Nat

/-- The single-quote character, written via its code point. -/
def squote : Char := Char.ofNat 39

/-- Characters `shlex.quote` (via `six.moves.shlex_quote`) leaves unquoted:
the ASCII word class plus at-sign, percent, plus, equals, colon, comma, dot,
slash and hyphen. -/
def shlexSafeChar (c : Char) : Bool :=
  c.isAlpha || c.isDigit || c = '_' || c = '@' || c = '%' || c = '+' ||
    c = '=' || c = ':' || c = ',' || c = '.' || c = '/' || c = '-'

/-- `shlex.quote` on the character list of a Python string: empty strings
become two single quotes, strings of safe characters pass through, anything
else is wrapped in single quotes with each embedded single quote replaced by
the five-character sequence quote, double-quote, quote, double-quote, quote. -/
def shlexQuoteL (s : List Char) : List Char :=
  if s = [] then [squote, squote]
  else if s.all shlexSafeChar then s
  else squote :: (s.flatMap fun c =>
    if c = squote then [squote, '"', squote, '"', squote] else [c]) ++ [squote]

/-- `shlex_quote` on `String`. -/
def shlex_quote (s : String) : String := String.mk (shlexQuoteL s.data)

/-- Python `s.join(parts)` for a character-list separator. -/
def joinSep (sep : List Char) : List (List Char) → List Char
  | [] => []
  | [x] => x
  | x :: y :: xs => x ++ sep ++ joinSep sep (y :: xs)

/-- Python `str.split(sep)` for a one-character separator, keeping empty
fields (e.g. `"a::b".split(":") == ["a", "", "b"]`). -/
def splitCh (sep : Char) : List Char → List (List Char)
  | [] => [[]]
  | c :: r =>
    let ws := splitCh sep r
    if c = sep then [] :: ws else (c :: ws.headD []) :: ws.tail

/-- The whitespace code points Python's no-argument `str.split` splits on
(ASCII whitespace, the C1 separators, and the Unicode space characters). -/
def pyIsSpace (c : Char) : Bool :=
  ([9, 10, 11, 12, 13, 28, 29, 30, 31, 32, 133, 160, 5760,
    8192, 8193, 8194, 8195, 8196, 8197, 8198, 8199, 8200, 8201, 8202,
    8232, 8233, 8239, 8287, 12288] : List Nat).contains c.toNat

/-- Accumulator-passing worker for `pySplit`. -/
def pySplitAux : List Char → List Char → List (List Char)
  | [], acc => if acc.isEmpty then [] else [acc.reverse]
  | c :: cs, acc =>
    if pyIsSpace c then
      if acc.isEmpty then pySplitAux cs [] else acc.reverse :: pySplitAux cs []
    else pySplitAux cs (c :: acc)

/-- Python's no-argument `str.split`: maximal runs of non-whitespace
characters, with leading/trailing/repeated whitespace dropped. -/
def pySplit (l : List Char) : List (List Char) := pySplitAux l []

/-- Lowercase hex digit, as produced by Python's `"%04x"` formatting. -/
def hexDigitChar (n : Nat) : Char :=
  if n < 10 then Char.ofNat (48 + n) else Char.ofNat (87 + n)

/-- Four-digit lowercase hex rendering of `n < 0x10000`. -/
def hex4 (n : Nat) : List Char :=
  [hexDigitChar (n / 4096 % 16), hexDigitChar (n / 256 % 16),
   hexDigitChar (n / 16 % 16), hexDigitChar (n % 16)]

/-- The escape `json.dumps` (default `ensure_ascii=True`) applies to one
character of a string: backslash and double quote get a backslash escape, the
five named control characters get their short escapes, printable ASCII passes
through, everything else becomes `\uXXXX` (a surrogate pair for astral code
points). -/
def escChar (c : Char) : List Char :=
  if c = '\\' then ['\\', '\\']
  else if c = '"' then ['\\', '"']
  else if c = Char.ofNat 8 then ['\\', 'b']
  else if c = Char.ofNat 12 then ['\\', 'f']
  else if c = '\n' then ['\\', 'n']
  else if c = '\r' then ['\\', 'r']
  else if c = '\t' then ['\\', 't']
  else if 32 ≤ c.toNat ∧ c.toNat ≤ 126 then [c]
  else if c.toNat < 65536 then '\\' :: 'u' :: hex4 c.toNat
  else ('\\' :: 'u' :: hex4 (55296 + (c.toNat - 65536) / 1024)) ++
       ('\\' :: 'u' :: hex4 (56320 + (c.toNat - 65536) % 1024))

/-- `json.dumps` of a single string: double quotes around the escaped body. -/
def encStr (s : List Char) : List Char := '"' :: s.flatMap escChar ++ ['"']

/-- The `", "` item separator `json.dumps` uses by default. -/
def joinComma : List (List Char) → List Char
  | [] => []
  | [x] => x
  | x :: y :: xs => x ++ ',' :: ' ' :: joinComma (y :: xs)

/-- `json.dumps` of a list of strings (the only shape `docker.py` dumps with
`format`): `[` elements separated by `", "` `]`. -/
def dumpsStrList (xs : List (List Char)) : List Char :=
  '[' :: joinComma (xs.map encStr) ++ [']']

/-- Value of a lowercase-hex digit character. -/
def hexVal (c : Char) : Option Nat :=
  if 48 ≤ c.toNat ∧ c.toNat ≤ 57 then some (c.toNat - 48)
  else if 97 ≤ c.toNat ∧ c.toNat ≤ 102 then some (c.toNat - 87)
  else none

/-- Decoder for the body of a JSON string literal (after the opening double
quote), covering exactly the escapes `escChar` emits; returns the decoded
characters and the input remaining after the closing double quote.  This is
how a JSON consumer (e.g. the container engine reading an exec-form
`ENTRYPOINT`) recovers the individual tokens. -/
def decodeStringBody : List Char → Option (List Char × List Char)
  | [] => none
  | c :: r =>
    if c = '"' then some ([], r)
    else if c = '\\' then
      match r with
      | [] => none
      | e :: r2 =>
        if e = '"' then (decodeStringBody r2).map fun p => ('"' :: p.1, p.2)
        else if e = '\\' then (decodeStringBody r2).map fun p => ('\\' :: p.1, p.2)
        else if e = 'b' then (decodeStringBody r2).map fun p => (Char.ofNat 8 :: p.1, p.2)
        else if e = 'f' then (decodeStringBody r2).map fun p => (Char.ofNat 12 :: p.1, p.2)
        else if e = 'n' then (decodeStringBody r2).map fun p => ('\n' :: p.1, p.2)
        else if e = 'r' then (decodeStringBody r2).map fun p => ('\r' :: p.1, p.2)
        else if e = 't' then (decodeStringBody r2).map fun p => ('\t' :: p.1, p.2)
        else if e = 'u' then
          match r2 with
          | h3 :: h2 :: h1 :: h0 :: r3 =>
            match hexVal h3, hexVal h2, hexVal h1, hexVal h0 with
            | some a, some b, some c1, some d =>
              (decodeStringBody r3).map fun p =>
                (Char.ofNat (((a * 16 + b) * 16 + c1) * 16 + d) :: p.1, p.2)
            | _, _, _, _ => none
          | _ => none
        else none
    else (decodeStringBody r).map fun p => (c :: p.1, p.2)

/-- Fuel-indexed decoder for the tail of a JSON string array: either a closing
bracket, or a `", "` separator followed by another string element. -/
def decodeMore : Nat → List Char → Option (List (List Char) × List Char)
  | _, ']' :: r => some ([], r)
  | fuel + 1, ',' :: ' ' :: '"' :: r =>
    match decodeStringBody r with
    | some (s, r1) => (decodeMore fuel r1).map fun p => (s :: p.1, p.2)
    | none => none
  | _, _ => none

/-- Decoder for a JSON array of strings in the exact concrete syntax
`dumpsStrList` produces; the fuel for the element loop is the input length. -/
def decodeStrArray (l : List Char) : Option (List (List Char) × List Char) :=
  match l with
  | '[' :: ']' :: r => some ([], r)
  | '[' :: '"' :: r =>
    match decodeStringBody r with
    | some (s, r1) => (decodeMore l.length r1).map fun p => (s :: p.1, p.2)
    | none => none
  | _ => none

/-- `PIP_TEMPLATE`, with its three placeholders substituted. -/
def pipTemplate (files pfx pipInstall : String) : String :=
  "\n" ++ "RUN python -m venv /env" ++ "\n" ++ "# make sure we install into the env" ++
    "\n" ++ "ENV PATH=\"/env/bin:$PATH\"" ++ "\n" ++ "COPY " ++ files ++ " ." ++ "\n" ++
    pfx ++ " " ++ pipInstall ++ "\n"

/-- `CONDA_TEMPLATE`, with its placeholder substituted (the backslash-newline
line continuations inside the Python triple-quoted literal are resolved, each
leaving the four-space indentation of the continued line). -/
def condaTemplate (pfx : String) : String :=
  "\nCOPY src/environment.yml .\n" ++ pfx ++
    " conda env create -f environment.yml -n env\n\n# pack the environment so that we can transfer to the base image\nRUN conda install -c conda-forge conda-pack\nRUN conda pack -n env -o /tmp/env.tar &&     mkdir /env && cd /env && tar xf /tmp/env.tar &&     rm /tmp/env.tar\nRUN /env/bin/conda-unpack\n"

/-- `PYTHON_SETUP_TEMPLATE`. -/
def pythonSetupTemplate (pyBaseImage : String) : String :=
  "\nFROM " ++ pyBaseImage ++ " as base\n"

/-- `CUDA_SETUP_TEMPLATE` (line continuations resolved as in the source
literal). -/
def cudaSetupTemplate (cudaBaseImage pkgs pyV : String) : String :=
  "\nFROM " ++ cudaBaseImage ++
    " as base\nRUN apt-get update -qq && apt-get install -y software-properties-common && add-apt-repository -y ppa:deadsnakes/ppa\n\n# install python\nRUN apt-get update -qq && apt-get install --no-install-recommends -y     "
    ++ pkgs ++
    "     && apt-get -qq purge && apt-get -qq clean     && rm -rf /var/lib/apt/lists/*\n\n# make sure `python` points at the right version\nRUN update-alternatives --install /usr/bin/python python /usr/bin/python"
    ++ pyV ++
    " 1     && update-alternatives --install /usr/local/bin/python python /usr/bin/python"
    ++ pyV ++ " 1\n"

/-- `USER_CREATE_TEMPLATE` (line continuations resolved). -/
def userCreateTemplate (uid : Nat) (user : String) : String :=
  "\nRUN useradd     --create-home     --no-log-init     --shell /bin/bash     --gid 0     --uid "
    ++ toString uid ++ "     " ++ user ++ "\n"

/-- `SAGEMAKER_ENTRYPOINT_TEMPLATE`. -/
def sagemakerEntrypointTemplate (workdir : String) : String :=
  "\nCOPY ./src/train " ++ workdir ++ "\nRUN chmod +x " ++ workdir ++
    "/train\nENTRYPOINT [\"sh\", \"train\"]\n"

/-- `_parse_existing_requirements`: checks for `requirements.txt`; when
present, reads it and produces the `WANDB_ONLY_INCLUDE=` assignment listing the
shlex-quoted parsed package names joined by commas (with a trailing space);
when absent, produces the empty string.  Returns the string together with the
I/O events performed. -/
def _parse_existing_requirements (lp : LaunchProject) (w : BuildWorld) :
    String × List Event :=
  if w.baseReqExists then
    ("WANDB_ONLY_INCLUDE=" ++
       String.mk (joinSep [','] (w.reqNames.map fun n => shlexQuoteL n.data)) ++ " ",
     [.statFile (lp.project_dir ++ "/requirements.txt"),
      .readFile (lp.project_dir ++ "/requirements.txt")])
  else ("", [.statFile (lp.project_dir ++ "/requirements.txt")])

/-- `get_requirements_section`: probes for buildx, then renders the pip, conda
or empty dependency-install fragment.  In the pip case it checks for
`requirements.frozen.txt`; when that is present the frozen manifest and the
bootstrap script are copied and the bootstrap installer is run instead of the
direct pip install. -/
def get_requirements_section (lp : LaunchProject) (w : BuildWorld) :
    String × List Event :=
  match lp.deps_type with
  | .pip =>
    let evs := [Event.probeBuildx,
                Event.statFile (lp.project_dir ++ "/requirements.frozen.txt")]
    let pfx := if w.buildx then "RUN --mount=type=cache,mode=0777,target=/root/.cache/pip"
               else "RUN WANDB_DISABLE_CACHE=true"
    if w.frozenExists then
      let pr := _parse_existing_requirements lp w
      (pipTemplate "src/requirements.txt src/requirements.frozen.txt _wandb_bootstrap.py"
         pfx (pr.1 ++ "python _wandb_bootstrap.py"),
       evs ++ pr.2)
    else
      (pipTemplate "src/requirements.txt" pfx "pip install -r requirements.txt", evs)
  | .conda =>
    (condaTemplate (if w.buildx then "RUN --mount=type=cache,mode=0777,target=/opt/conda/pkgs"
                    else "RUN WANDB_DISABLE_CACHE=true"),
     [Event.probeBuildx])
  | .nodeps => ("", [Event.probeBuildx])

/-- `get_base_setup`: CPU images build on `python:<ver>-buster`; CUDA images
build on `nvidia/cuda:<ver>-runtime` with an OS package list provisioning the
interpreter. -/
def get_base_setup (lp : LaunchProject) (py_version py_major : String) : String :=
  if lp.cuda then
    let cuda_version := match lp.cuda_version with
      | some v => if v.isEmpty then "10.0" else v
      | none => "10.0"
    let python_packages :=
      if py_major = "2" then
        ["python" ++ py_version, "libpython" ++ py_version, "python-pip",
         "python-setuptools"]
      else
        ["python" ++ py_version, "libpython" ++ py_version, "python3-pip",
         "python3-setuptools"]
    cudaSetupTemplate ("nvidia/cuda:" ++ cuda_version ++ "-runtime")
      (String.intercalate " \\\n" python_packages) py_version
  else pythonSetupTemplate ("python:" ++ py_version ++ "-buster")

/-- Python truthiness of the `docker_image` field: falsy when `None` or the
empty string. -/
def dockerImageFalsy : Option String → Bool
  | none => true
  | some s => s.isEmpty

/-- `get_docker_user`: sagemaker without a user-supplied image runs as uid 0;
otherwise the explicit `docker_user_id` when truthy, else the host euid. -/
def get_docker_user (lp : LaunchProject) (runner_type : String) (w : BuildWorld) :
    String × Nat :=
  if runner_type = "sagemaker" && dockerImageFalsy lp.docker_image then (w.username, 0)
  else (w.username, if lp.docker_user_id ≠ 0 then lp.docker_user_id else w.euid)

/-- `get_user_setup`: root for sagemaker, otherwise create and switch to a
dedicated user. -/
def get_user_setup (username : String) (userid : Nat) (runner_type : String) : String :=
  if runner_type = "sagemaker" then "USER root"
  else userCreateTemplate userid username ++ "\nUSER " ++ username

/-- `get_entrypoint_setup`: for sagemaker, write the resolved command to the
`train` file in the project directory and reference it from the entrypoint;
otherwise render `ENTRYPOINT` followed by the `json.dumps` of
`entry_cmd.split()`. -/
def get_entrypoint_setup (lp : LaunchProject) (entry_cmd workdir runner_type : String) :
    String × List Event :=
  if runner_type = "sagemaker" then
    (sagemakerEntrypointTemplate workdir,
     [Event.writeFile (lp.project_dir ++ "/train") entry_cmd])
  else
    ("ENTRYPOINT " ++ String.mk (dumpsStrList (pySplit entry_cmd.data)), [])

/-- Interpreter-version resolution at the top of `generate_dockerfile`: an
explicit `python_version` is truncated to major.minor, else the version
running the tool is used. -/
def resolvePyVersion (lp : LaunchProject) (w : BuildWorld) : String × String :=
  match lp.python_version with
  | some v =>
    let spl := (splitCh '.' v.data).take 2
    (String.mk (joinSep ['.'] spl), String.mk (spl.headD []))
  | none => (w.currentPyVersion, w.currentPyMajor)

/-- `DOCKERFILE_TEMPLATE`, with its placeholders substituted. -/
def dockerfileTemplate (pyBuildImage requirementsSection baseSetup : String)
    (uid : Nat) (userSetup workdir entrypointSetup : String) : String :=
  "\n# ----- stage 1: build -----\nFROM " ++ pyBuildImage ++
    " as build\n\n# requirements section depends on pip vs conda, and presence of buildx\n"
    ++ requirementsSection ++ "\n\n# ----- stage 2: base -----\n" ++ baseSetup ++
    "\n\nCOPY --from=build /env /env\nENV PATH=\"/env/bin:$PATH\"\n\nENV SHELL /bin/bash\n\n# some resources (eg sagemaker) must run on root\n"
    ++ userSetup ++ "\n\nWORKDIR " ++ workdir ++ "\nRUN chown -R " ++ toString uid ++
    " " ++ workdir ++ "\n\n# make artifacts cache dir unrelated to build\nRUN mkdir -p "
    ++ workdir ++ "/.cache && chown -R " ++ toString uid ++ " " ++ workdir ++
    "/.cache\n\n# copy code/etc\nCOPY --chown=" ++ toString uid ++ " src/ " ++ workdir ++
    "\n\nENV PYTHONUNBUFFERED=1\n\n# some resources (eg sagemaker) have unique entrypoint requirements\n"
    ++ entrypointSetup ++ "\n"

/-- `generate_dockerfile`: selects the build-stage image from the dependency
kind, renders the requirements, base, user and entrypoint fragments in source
order, and assembles `DOCKERFILE_TEMPLATE`; the returned trace is the ordered
I/O the call performs. -/
def generate_dockerfile (lp : LaunchProject) (entry_cmd runner_type : String)
    (w : BuildWorld) : String × List Event :=
  let pv := resolvePyVersion lp w
  let pyBuildImage := match lp.deps_type with
    | .pip => "python:" ++ pv.1
    | .nodeps => "python:" ++ pv.1
    | .conda => if pv.2 = "3" then "continuumio/miniconda3:latest"
                else "continuumio/miniconda:latest"
  let req := get_requirements_section lp w
  let base := get_base_setup lp pv.1 pv.2
  let du := get_docker_user lp runner_type w
  let userSetup := get_user_setup du.1 du.2 runner_type
  let workdir := "/home/" ++ du.1
  let ep := get_entrypoint_setup lp entry_cmd workdir runner_type
  (dockerfileTemplate pyBuildImage req.1 base du.2 userSetup workdir ep.1,
   req.2 ++ ep.2)

/-- `os.remove` on an existing path: `unlink(2)` cannot remove a directory, so
the call raises for a directory and succeeds for a regular file. -/
def os_remove (isDirectory : Bool) : Except PyExc Unit :=
  if isDirectory then .error .isADirectoryError else .ok ()

/-- The build-and-cleanup tail of `generate_docker_image`, after the build
context has been assembled.  `buildResult` is the outcome of the
`docker.build` engine invocation (error payload = the `DockerError` text); the
context path returned by `_create_docker_build_ctx` comes from
`tempfile.mkdtemp()` and is therefore a directory, which is the argument
`os.remove` receives.  Result components: the returned image or raised
exception; whether `os.remove` was attempted; whether the context directory
was actually deleted; the log records emitted, as (level, message) pairs. -/
def generate_docker_image_run (buildResult : Except String String) :
    Except PyExc String × Bool × Bool × List (String × String) :=
  match buildResult with
  | .error e =>
    (.error (.launchError ("Error communicating with docker client: " ++ e)),
     false, false, [])
  | .ok image =>
    match os_remove true with
    | .ok _ => (.ok image, true, true, [])
    | .error _ =>
      (.ok image, true, false,
       [("info", "Temporary docker context file %s was not deleted.")])

/-- Exceptions the `except (DockerError, ValueError)` clause in
`docker_image_exists` catches. -/
def isCaughtExc : PyExc → Bool
  | .dockerError _ => true
  | .valueError _ => true
  | _ => false

/-- The body of the `try` block in `docker_image_exists`: run the engine
inspect invocation, `json.loads` the response, and take element `[0]`.
`engine img` is the outcome of `docker.run(["docker", "image", "inspect",
img])` (error payload = the `DockerError` text) and `loads` is the JSON
library (error payload = the `ValueError` text). -/
def inspectAttempt (engine : String → Except String String)
    (loads : String → Except String PyJson) (img : String) : Except PyExc PyJson :=
  match engine img with
  | .error m => .error (.dockerError m)
  | .ok data =>
    match loads data with
    | .error m => .error (.valueError m)
    | .ok parsed => index0 parsed

/-- `docker_image_exists`: on a successful attempt the parsed element is
stored in the cache and `True` is returned; a caught exception yields `False`,
or is re-raised when `should_raise`; any other exception propagates.  The
final component counts engine invocations (always exactly one here). -/
def docker_image_exists (engine : String → Except String String)
    (loads : String → Except String PyJson) (cache : Cache) (img : String)
    (should_raise : Bool) : Except PyExc Bool × Cache × Nat :=
  match inspectAttempt engine loads img with
  | .ok j => (.ok true, fun y => if y = img then some j else cache y, 1)
  | .error e =>
    if isCaughtExc e && !should_raise then (.ok false, cache, 1)
    else (.error e, cache, 1)

/-- Modelled from the amended claim C1, as a second definition following the
claim's words for comparison with the source embedding `docker_image_exists`:
the call returns true exactly when the inspect invocation succeeds, its output
parses as JSON, and taking element 0 of the parsed value succeeds, in which
case that element is stored in the cache; an invocation or JSON-decode failure
stores nothing and yields false, or propagates the original failure when
`should_raise`; an element-0 failure propagates unconditionally and stores
nothing. -/
def inspectExistsModel (engine : String → Except String String)
    (loads : String → Except String PyJson) (cache : Cache) (img : String)
    (should_raise : Bool) : Except PyExc Bool × Cache × Nat :=
  match engine img with
  | .error m =>
    ((if should_raise then .error (.dockerError m) else .ok false), cache, 1)
  | .ok data =>
    match loads data with
    | .error m =>
      ((if should_raise then .error (.valueError m) else .ok false), cache, 1)
    | .ok parsed =>
      match index0 parsed with
      | .error ex => (.error ex, cache, 1)
      | .ok j => (.ok true, fun y => if y = img then some j else cache y, 1)

/-- Python's `v is None` test on a cached slot: true for a missing key and for
a stored JSON null (which `json.loads` returns as `None`). -/
def cachedIsNone (c : Cache) (img : String) : Bool :=
  match c img with
  | none => true
  | some v => match v with | .null => true | _ => false

/-- `docker_image_inspect`: when the cached slot `is None`, call
`docker_image_exists` with `should_raise=True` (propagating its exception);
then return `_inspected_images.get(docker_image, {})` — the stored value when
the key is present (even if null), else the empty dict.  The final component
counts engine invocations. -/
def docker_image_inspect (engine : String → Except String String)
    (loads : String → Except String PyJson) (cache : Cache) (img : String) :
    Except PyExc PyJson × Cache × Nat :=
  if cachedIsNone cache img then
    match docker_image_exists engine loads cache img true with
    | (.error e, c1, n) => (.error e, c1, n)
    | (.ok _, c1, n) =>
      ((match c1 img with | some v => .ok v | none => .ok (.obj [])), c1, n)
  else
    ((match cache img with | some v => .ok v | none => .ok (.obj [])), cache, 0)

/-- Values a `docker_args` mapping can hold (`Dict[str, Any]` in the source;
strings, booleans and integers are the shapes the callers pass). -/
inductive PyVal where
  | str (s : String)
  | bool (b : Bool)
  | int (n : Int)

/-- Python `str()` of a `PyVal`. -/
def pyStr : PyVal → String
  | .str s => s
  | .bool true => "True"
  | .bool false => "False"
  | .int n => toString n

/-- `get_docker_command`: `docker run --rm`, one `-e KEY=VALUE` pair per
environment variable with key and value each shlex-quoted, one rendered flag
per docker arg (bare when the value is boolean `True`, with a stringified
value token otherwise; single dash for one-character names, double dash
otherwise), and the shlex-quoted image last. -/
def get_docker_command (image : String) (env_vars : List (String × String))
    (docker_args : List (String × PyVal)) : List String :=
  ["docker", "run", "--rm"] ++
    (env_vars.flatMap fun p => ["-e", shlex_quote p.1 ++ "=" ++ shlex_quote p.2]) ++
    (docker_args.flatMap fun p =>
      match p.2 with
      | .bool true =>
        [(if p.1.length = 1 then "-" else "--") ++ shlex_quote p.1]
      | v =>
        [(if p.1.length = 1 then "-" else "--") ++ shlex_quote p.1,
         shlex_quote (pyStr v)]) ++
    [shlex_quote image]

/-- Python `str.replace` for a one-character pattern and replacement (the
`name.replace(" ", "-")` call in `_get_docker_image_uri`). -/
def pyReplaceChar (s : String) (pat rep : Char) : String :=
  String.mk (s.data.map fun c => if c = pat then rep else c)

/-- `_get_docker_image_uri`.  `name` and `git_commit` follow Python
truthiness: `None` and the empty string both fall to the defaults.
`git_commit` is the `GitRepo(work_dir).last_commit` value, an external
input. -/
def _get_docker_image_uri (name : Option String) (git_commit : Option String)
    (image_id : String) : String :=
  let n := match name with
    | some s => if s.isEmpty then "wandb-launch" else pyReplaceChar s ' ' '-'
    | none => "wandb-launch"
  let version := match git_commit with
    | some c => if c.isEmpty then ":" ++ image_id else ":" ++ c.take 7 ++ image_id
    | none => ":" ++ image_id
  n ++ version

/-- `construct_local_image_uri`. -/
def construct_local_image_uri (lp : LaunchProject) (git_commit : Option String) :
    String :=
  _get_docker_image_uri lp.image_name git_commit lp.run_id

/-- Modelled from the spec: the `_is_wandb_local_uri` predicate of the
`launch.utils` module (absent from the sources under review; only this module
imports it).  Per the spec it holds when the configured service endpoint
resolves to the invoking host's own loopback address; modelled as the URL
naming `localhost` or `127.0.0.1`. -/
def IsWandbLocalUri (uri : String) : Bool :=
  let hay := uri.data
  decide ("localhost".data <:+: hay) || decide ("127.0.0.1".data <:+: hay)

/-- `get_env_vars_dict`, with the external inputs made explicit: the
configured base URL and API key from `api.settings` / `api.api_key`, the
`sys.platform` value, the two URI predicates from `launch.utils`, and the
`json.dumps` encodings of the override config and artifacts.  The darwin
branch unpacks `base_url.split(":")` into exactly three parts (raising
`ValueError` otherwise) and rewrites the URL to `host.docker.internal` with
the original port. -/
def get_env_vars_dict (baseUrl apiKey : String) (lp : LaunchProject)
    (cfgJson artsJson : String) (platform : String)
    (isLocal isDev : String → Bool) : Except PyExc (List (String × String)) :=
  match
    (if isLocal baseUrl && (platform = "darwin") then
      match splitCh ':' baseUrl.data with
      | [_, _, port] => .ok ("http://host.docker.internal:" ++ String.mk port)
      | _ => .error (.valueError "not enough values to unpack")
    else if isDev baseUrl then .ok "http://host.docker.internal:9002"
    else .ok baseUrl : Except PyExc String) with
  | .error e => .error e
  | .ok burl =>
    .ok ([("WANDB_BASE_URL", burl), ("WANDB_API_KEY", apiKey),
          ("WANDB_PROJECT", lp.target_project), ("WANDB_ENTITY", lp.target_entity),
          ("WANDB_LAUNCH", "True"), ("WANDB_RUN_ID", lp.run_id)] ++
         (match lp.docker_image with
          | some di => if di.isEmpty then [] else [("WANDB_DOCKER", di)]
          | none => []) ++
         [("WANDB_CONFIG", cfgJson), ("WANDB_ARTIFACTS", artsJson)])

/-- Whether `pat` occurs at the head of `ws`. -/
def startsWithSeq [DecidableEq α] : List α → List α → Bool
  | [], _ => true
  | _ :: _, [] => false
  | p :: ps, w :: wsx => decide (p = w) && startsWithSeq ps wsx

/-- Whether `pat` occurs contiguously anywhere in `l`. -/
def containsSeq [DecidableEq α] (pat : List α) : List α → Bool
  | [] => pat.isEmpty
  | a :: t => startsWithSeq pat (a :: t) || containsSeq pat t

/-- The token sequence of the direct pip install command. -/
def pipInstallWords : List (List Char) :=
  ["pip".data, "install".data, "-r".data, "requirements.txt".data]

/-- A build-file line invokes the direct pip install when its space-separated
words contain `pip install -r requirements.txt` as a contiguous run. -/
def isPipInstallLine (l : List Char) : Bool :=
  containsSeq pipInstallWords (splitCh ' ' l)

/-- A build-file line references the bootstrap script when it contains
`_wandb_bootstrap.py` as a substring. -/
def mentionsBootstrap (l : List Char) : Bool :=
  containsSeq "_wandb_bootstrap.py".data l

/-- The lines of a rendered document. -/
def docLines (s : String) : List (List Char) := splitCh '\n' s.data

/-- Stub engine whose inspect output parses as a two-element JSON array. -/
def engineTwo : String → Except String String := fun _ => .ok "RESP2"

/-- Stub JSON library for `engineTwo`'s output: a two-element array. -/
def loadsTwo : String → Except String PyJson := fun s =>
  if s = "RESP2" then .ok (.arr [.num 1, .num 2]) else .error "invalid json"

/-- The empty inspection cache. -/
def emptyCache : Cache := fun _ => none

/-- Stub engine whose inspect output parses as the singleton array of null. -/
def engineNull : String → Except String String := fun _ => .ok "RESPN"

/-- Stub JSON library for `engineNull`'s output: the singleton array
containing JSON null. -/
def loadsNull : String → Except String PyJson := fun s =>
  if s = "RESPN" then .ok (.arr [.null]) else .error "invalid json"

/-- Cache state after a successful `docker_image_exists` on `engineNull`:
the parsed record under key `img` is JSON null. -/
def cacheNull : Cache := fun y => if y = "img" then some PyJson.null else none

/-- Stub engine whose inspect output parses as a singleton array holding an
object. -/
def engineObj : String → Except String String := fun _ => .ok "RESPO"

/-- Stub JSON library for `engineObj`'s output. -/
def loadsObj : String → Except String PyJson := fun s =>
  if s = "RESPO" then .ok (.arr [.obj []]) else .error "invalid json"

/-- Cache state after a successful `docker_image_exists` on `engineObj`. -/
def cacheObj : Cache := fun y => if y = "img" then some (PyJson.obj []) else none

/-- A pip project in `/proj` used as a concrete test fixture. -/
def lpPip : LaunchProject :=
  ⟨none, "run1", "proj", "ent", none, .pip, some "3.9", false, none, 0, "/proj"⟩

/-- A host world with buildx installed and both dependency manifests
present. -/
def worldFull : BuildWorld :=
  ⟨true, true, true, ["numpy"], "3.8", "3", "bob", 1000⟩

/-- The encoding of the tail of a nonempty string array: for each remaining
element a `", "` separator and the element, then the closing bracket.  Spelled
out so that the array round-trip can proceed element by element. -/
def encTail : List (List Char) → List Char
  | [] => [']']
  | x :: xs => ',' :: ' ' :: encStr x ++ encTail xs

theorem splitCh_sep_cons (sep : Char) (a b : List Char) (h : sep ∉ a) :
    splitCh sep (a ++ sep :: b) = a :: splitCh sep b := by
  induction a with
  | nil => simp [splitCh]
  | cons c a ih =>
    have hc : c ≠ sep := fun hh => h (hh ▸ List.mem_cons_self c a)
    have ha : sep ∉ a := fun hh => h (List.mem_cons_of_mem c hh)
    simp [splitCh, hc, ih ha]

theorem splitCh_of_no_sep (sep : Char) (a : List Char) (h : sep ∉ a) :
    splitCh sep a = [a] := by
  induction a with
  | nil => simp [splitCh]
  | cons c a ih =>
    have hc : c ≠ sep := fun hh => h (hh ▸ List.mem_cons_self c a)
    have ha : sep ∉ a := fun hh => h (List.mem_cons_of_mem c hh)
    simp [splitCh, hc, ih ha]

theorem mem_joinSep {sep : List Char} {ls : List (List Char)} {c : Char}
    (h : c ∈ joinSep sep ls) : c ∈ sep ∨ ∃ l ∈ ls, c ∈ l := by
  induction ls with
  | nil => simp [joinSep] at h
  | cons x xs ih =>
    cases xs with
    | nil =>
      simp only [joinSep] at h
      exact Or.inr ⟨x, List.mem_cons_self x [], h⟩
    | cons y ys =>
      simp only [joinSep, List.append_assoc, List.mem_append] at h
      rcases h with h | h | h
      · exact Or.inr ⟨x, List.mem_cons_self x (y :: ys), h⟩
      · exact Or.inl h
      · rcases ih h with h' | ⟨l, hl, hcl⟩
        · exact Or.inl h'
        · exact Or.inr ⟨l, List.mem_cons_of_mem x hl, hcl⟩

theorem mem_shlexQuoteL {s : List Char} {c : Char} (h : c ∈ shlexQuoteL s) :
    c ∈ s ∨ c = squote ∨ c = '"' := by
  unfold shlexQuoteL at h
  split at h
  · simp at h
    exact Or.inr (Or.inl h)
  · split at h
    · exact Or.inl h
    · simp only [List.mem_append, List.mem_cons, List.mem_flatMap,
        List.mem_singleton] at h
      rcases h with (h | ⟨x, hx, hcx⟩) | h
      · exact Or.inr (Or.inl h)
      · by_cases hq : x = squote
        · simp [hq] at hcx
          tauto
        · simp [hq] at hcx
          exact Or.inl (hcx ▸ hx)
      · rcases h with h | h
        · exact Or.inr (Or.inl h)
        · simp at h

theorem hexVal_hexDigitChar : ∀ n : Nat, n < 16 → hexVal (hexDigitChar n) = some n := by
  decide

theorem esc_decode (c : Char) (hc : c.toNat < 65536) (r : List Char) :
    decodeStringBody (escChar c ++ r) =
      (decodeStringBody r).map fun p => (c :: p.1, p.2) := by
  by_cases h1 : c = '\\'
  · subst h1
    have he : escChar '\\' ++ r = '\\' :: '\\' :: r := by simp [escChar]
    rw [he]
    conv_lhs => rw [decodeStringBody.eq_def]
    simp
  by_cases h2 : c = '"'
  · subst h2
    have he : escChar '"' ++ r = '\\' :: '"' :: r := by simp [escChar]
    rw [he]
    conv_lhs => rw [decodeStringBody.eq_def]
    simp
  by_cases h3 : c = Char.ofNat 8
  · subst h3
    have he : escChar (Char.ofNat 8) ++ r = '\\' :: 'b' :: r := by simp [escChar]
    rw [he]
    conv_lhs => rw [decodeStringBody.eq_def]
    simp
  by_cases h4 : c = Char.ofNat 12
  · subst h4
    have he : escChar (Char.ofNat 12) ++ r = '\\' :: 'f' :: r := by simp [escChar]
    rw [he]
    conv_lhs => rw [decodeStringBody.eq_def]
    simp
  by_cases h5 : c = '\n'
  · subst h5
    have he : escChar '\n' ++ r = '\\' :: 'n' :: r := by simp [escChar]
    rw [he]
    conv_lhs => rw [decodeStringBody.eq_def]
    simp
  by_cases h6 : c = '\r'
  · subst h6
    have he : escChar '\r' ++ r = '\\' :: 'r' :: r := by simp [escChar]
    rw [he]
    conv_lhs => rw [decodeStringBody.eq_def]
    simp
  by_cases h7 : c = '\t'
  · subst h7
    have he : escChar '\t' ++ r = '\\' :: 't' :: r := by simp [escChar]
    rw [he]
    conv_lhs => rw [decodeStringBody.eq_def]
    simp
  by_cases h8 : 32 ≤ c.toNat ∧ c.toNat ≤ 126
  · have he : escChar c ++ r = c :: r := by
      simp [escChar, h1, h2, h3, h4, h5, h6, h7, h8.1, h8.2]
    rw [he]
    conv_lhs => rw [decodeStringBody.eq_def]
    simp [h1, h2]
  · have d3 : c.toNat / 4096 % 16 < 16 := Nat.mod_lt _ (by norm_num)
    have d2 : c.toNat / 256 % 16 < 16 := Nat.mod_lt _ (by norm_num)
    have d1 : c.toNat / 16 % 16 < 16 := Nat.mod_lt _ (by norm_num)
    have d0 : c.toNat % 16 < 16 := Nat.mod_lt _ (by norm_num)
    have harith :
        ((c.toNat / 4096 % 16 * 16 + c.toNat / 256 % 16) * 16 + c.toNat / 16 % 16) * 16
          + c.toNat % 16 = c.toNat := by omega
    have hch : Char.ofNat (((c.toNat / 4096 % 16 * 16 + c.toNat / 256 % 16) * 16
          + c.toNat / 16 % 16) * 16 + c.toNat % 16) = c := by
      rw [harith, Char.ofNat_toNat]
    have he : escChar c ++ r = '\\' :: 'u' :: hexDigitChar (c.toNat / 4096 % 16) ::
        hexDigitChar (c.toNat / 256 % 16) :: hexDigitChar (c.toNat / 16 % 16) ::
        hexDigitChar (c.toNat % 16) :: r := by
      simp only [escChar, h1, h2, h3, h4, h5, h6, h7, h8, hc, if_false, if_true,
        ite_true, ite_false, hex4, List.cons_append, List.nil_append]
    rw [he]
    conv_lhs => rw [decodeStringBody.eq_def]
    simp [hexVal_hexDigitChar _ d3, hexVal_hexDigitChar _ d2,
      hexVal_hexDigitChar _ d1, hexVal_hexDigitChar _ d0, hch]

theorem body_roundtrip (s : List Char) (hs : ∀ c ∈ s, c.toNat < 65536) (r : List Char) :
    decodeStringBody (s.flatMap escChar ++ '"' :: r) = some (s, r) := by
  induction s with
  | nil =>
    simp only [List.flatMap_nil, List.nil_append]
    rw [decodeStringBody.eq_def]
    simp
  | cons c s ih =>
    have hc : c.toNat < 65536 := hs c (List.mem_cons_self c s)
    have hsr : ∀ x ∈ s, x.toNat < 65536 := fun x hx => hs x (List.mem_cons_of_mem c hx)
    rw [List.flatMap_cons, List.append_assoc, esc_decode c hc, ih hsr]
    rfl

theorem joinComma_encTail (x : List Char) (xs : List (List Char)) :
    joinComma (List.map encStr (x :: xs)) ++ [']'] = encStr x ++ encTail xs := by
  induction xs generalizing x with
  | nil => rfl
  | cons y ys ih =>
    have h1 : joinComma (List.map encStr (x :: y :: ys)) =
        encStr x ++ ',' :: ' ' :: joinComma (List.map encStr (y :: ys)) := rfl
    rw [h1, List.append_assoc]
    rw [show (',' :: ' ' :: joinComma (List.map encStr (y :: ys))) ++ [']']
          = ',' :: ' ' :: (joinComma (List.map encStr (y :: ys)) ++ [']']) from rfl]
    rw [ih y]
    rfl

theorem encTail_length_ge (xs : List (List Char)) : xs.length ≤ (encTail xs).length := by
  induction xs with
  | nil => simp [encTail]
  | cons x xs ih =>
    have h1 : encTail (x :: xs) = ',' :: ' ' :: encStr x ++ encTail xs := rfl
    rw [h1]
    simp only [List.length_cons, List.cons_append, List.length_append]
    omega

theorem decodeMore_roundtrip (xs : List (List Char)) :
    ∀ fuel r, xs.length ≤ fuel →
      (∀ t ∈ xs, ∀ c ∈ t, c.toNat < 65536) →
      decodeMore fuel (encTail xs ++ r) = some (xs, r) := by
  induction xs with
  | nil =>
    intro fuel r _ _
    cases fuel <;> rfl
  | cons x xs ih =>
    intro fuel r hf hbmp
    cases fuel with
    | zero => simp at hf
    | succ f =>
      have hx : ∀ c ∈ x, c.toNat < 65536 := hbmp x (List.mem_cons_self x xs)
      have hxs : ∀ t ∈ xs, ∀ c ∈ t, c.toNat < 65536 :=
        fun t ht => hbmp t (List.mem_cons_of_mem x ht)
      have hshape : encTail (x :: xs) ++ r =
          ',' :: ' ' :: '"' :: (x.flatMap escChar ++ '"' :: (encTail xs ++ r)) := by
        simp [encTail, encStr]
      rw [hshape]
      have hstep : decodeMore (f + 1)
          (',' :: ' ' :: '"' :: (x.flatMap escChar ++ '"' :: (encTail xs ++ r))) =
          match decodeStringBody (x.flatMap escChar ++ '"' :: (encTail xs ++ r)) with
          | some (s, r1) => (decodeMore f r1).map fun p => (s :: p.1, p.2)
          | none => none := rfl
      rw [hstep, body_roundtrip x hx]
      rw [show (match (some (x, encTail xs ++ r) : Option (List Char × List Char)) with
            | some (s, r1) => (decodeMore f r1).map fun p => (s :: p.1, p.2)
            | none => none)
          = (decodeMore f (encTail xs ++ r)).map fun p => (x :: p.1, p.2) from rfl]
      rw [ih f r (by simp at hf; omega) hxs]
      rfl

theorem dumps_roundtrip (xs : List (List Char))
    (hbmp : ∀ t ∈ xs, ∀ c ∈ t, c.toNat < 65536) :
    decodeStrArray (dumpsStrList xs) = some (xs, []) := by
  cases xs with
  | nil => rfl
  | cons x xs =>
    have hx : ∀ c ∈ x, c.toNat < 65536 := hbmp x (List.mem_cons_self x xs)
    have hxs : ∀ t ∈ xs, ∀ c ∈ t, c.toNat < 65536 :=
      fun t ht => hbmp t (List.mem_cons_of_mem x ht)
    have hshape : dumpsStrList (x :: xs) =
        '[' :: '"' :: (x.flatMap escChar ++ '"' :: (encTail xs ++ [])) := by
      have hj := joinComma_encTail x xs
      simp only [dumpsStrList]
      rw [show ('[' :: joinComma (List.map encStr (x :: xs)) ++ [']'])
            = '[' :: (joinComma (List.map encStr (x :: xs)) ++ [']']) from rfl]
      rw [hj]
      simp [encStr]
    rw [hshape]
    have hstep : decodeStrArray ('[' :: '"' :: (x.flatMap escChar ++ '"' :: (encTail xs ++ []))) =
        match decodeStringBody (x.flatMap escChar ++ '"' :: (encTail xs ++ [])) with
        | some (s, r1) =>
          (decodeMore ('[' :: '"' :: (x.flatMap escChar ++ '"' :: (encTail xs ++ []))
             : List Char).length r1).map fun p => (s :: p.1, p.2)
        | none => none := rfl
    rw [hstep, body_roundtrip x hx]
    rw [show (match (some (x, encTail xs ++ []) : Option (List Char × List Char)) with
          | some (s, r1) =>
            (decodeMore ('[' :: '"' :: (x.flatMap escChar ++ '"' :: (encTail xs ++ []))
               : List Char).length r1).map fun p => (s :: p.1, p.2)
          | none => none)
        = (decodeMore ('[' :: '"' :: (x.flatMap escChar ++ '"' :: (encTail xs ++ []))
             : List Char).length (encTail xs ++ [])).map fun p => (x :: p.1, p.2) from rfl]
    have hlen : xs.length ≤
        ('[' :: '"' :: (x.flatMap escChar ++ '"' :: (encTail xs ++ [])) : List Char).length := by
      have h1 := encTail_length_ge xs
      simp only [List.length_cons, List.length_append, List.length_nil]
      omega
    rw [decodeMore_roundtrip xs _ [] hlen hxs]
    rfl

theorem pySplitAux_mem {l : List Char} :
    ∀ {acc t : List Char}, t ∈ pySplitAux l acc → ∀ c ∈ t, c ∈ l ∨ c ∈ acc := by
  induction l with
  | nil =>
    intro acc t h c hc
    unfold pySplitAux at h
    split at h
    · simp at h
    · simp at h
      subst h
      exact Or.inr (List.mem_reverse.mp hc)
  | cons x xs ih =>
    intro acc t h c hc
    unfold pySplitAux at h
    split at h
    · split at h
      · rcases ih h c hc with h' | h'
        · exact Or.inl (List.mem_cons_of_mem x h')
        · simp at h'
      · rcases List.mem_cons.mp h with h' | h'
        · subst h'
          exact Or.inr (List.mem_reverse.mp hc)
        · rcases ih h' c hc with h'' | h''
          · exact Or.inl (List.mem_cons_of_mem x h'')
          · simp at h''
    · rcases ih h c hc with h' | h'
      · exact Or.inl (List.mem_cons_of_mem x h')
      · rcases List.mem_cons.mp h' with h'' | h''
        · exact Or.inl (h'' ▸ List.mem_cons_self x xs)
        · exact Or.inr h''

theorem pySplit_mem {l t : List Char} (h : t ∈ pySplit l) : ∀ c ∈ t, c ∈ l := by
  intro c hc
  rcases pySplitAux_mem h c hc with h' | h'
  · exact h'
  · simp at h'

theorem mem_join_names {names : List String} {c : Char}
    (h : c ∈ joinSep [','] (names.map fun n => shlexQuoteL n.data)) :
    c = ',' ∨ c = squote ∨ c = '"' ∨ ∃ n ∈ names, c ∈ n.data := by
  rcases mem_joinSep h with h | ⟨l, hl, hcl⟩
  · simp at h
    exact Or.inl h
  · simp at hl
    obtain ⟨n, hn, rfl⟩ := hl
    rcases mem_shlexQuoteL hcl with h' | h' | h'
    · exact Or.inr (Or.inr (Or.inr ⟨n, hn, h'⟩))
    · exact Or.inr (Or.inl h')
    · exact Or.inr (Or.inr (Or.inl h'))

theorem docLines_pipTemplate (files pfx pi : String)
    (hf : '\n' ∉ files.data) (hp : '\n' ∉ pfx.data) (hi : '\n' ∉ pi.data) :
    docLines (pipTemplate files pfx pi) =
      [[], "RUN python -m venv /env".data, "# make sure we install into the env".data,
       "ENV PATH=\"/env/bin:$PATH\"".data,
       "COPY ".data ++ files.data ++ " .".data,
       pfx.data ++ ' ' :: pi.data, []] := by
  have hCOPY : '\n' ∉ "COPY ".data ++ files.data ++ " .".data := by
    intro h
    rcases List.mem_append.mp h with h' | h'
    · rcases List.mem_append.mp h' with h'' | h''
      · revert h''; decide
      · exact hf h''
    · revert h'; decide
  have hRUNL : '\n' ∉ pfx.data ++ ' ' :: pi.data := by
    intro h
    rcases List.mem_append.mp h with h' | h'
    · exact hp h'
    · rcases List.mem_cons.mp h' with h'' | h''
      · exact absurd h'' (by decide)
      · exact hi h''
  have hdata : (pipTemplate files pfx pi).data =
      [] ++ '\n' :: ("RUN python -m venv /env".data ++ '\n' ::
        ("# make sure we install into the env".data ++ '\n' ::
        ("ENV PATH=\"/env/bin:$PATH\"".data ++ '\n' ::
        (("COPY ".data ++ files.data ++ " .".data) ++ '\n' ::
        ((pfx.data ++ ' ' :: pi.data) ++ '\n' :: []))))) := by
    simp [pipTemplate, String.data_append]
  unfold docLines
  rw [hdata]
  rw [splitCh_sep_cons '\n' [] _ (by decide)]
  rw [splitCh_sep_cons '\n' _ _ (by decide)]
  rw [splitCh_sep_cons '\n' _ _ (by decide)]
  rw [splitCh_sep_cons '\n' _ _ (by decide)]
  rw [splitCh_sep_cons '\n' _ _ hCOPY]
  rw [splitCh_sep_cons '\n' _ _ hRUNL]
  rfl

/-- C3: for every backend kind other than the root-mandated one (sagemaker),
the rendered entrypoint fragment is `ENTRYPOINT ` followed by the JSON array
of `entry_cmd.split()` (and no file is written); decoding that JSON array
recovers exactly the split tokens, so each token of the resolved command is
preserved as one token with correct quoting regardless of special characters
(stated for commands of basic-plane characters; the escaping covers quotes,
backslashes, control and non-ASCII characters). -/
theorem C3_entrypoint_json_tokens (lp : LaunchProject)
    (entry_cmd workdir runner_type : String)
    (hrt : runner_type ≠ "sagemaker")
    (hbmp : ∀ c ∈ entry_cmd.data, c.toNat < 65536) :
    (get_entrypoint_setup lp entry_cmd workdir runner_type).1 =
        "ENTRYPOINT " ++ String.mk (dumpsStrList (pySplit entry_cmd.data)) ∧
    (get_entrypoint_setup lp entry_cmd workdir runner_type).2 = [] ∧
    decodeStrArray (dumpsStrList (pySplit entry_cmd.data)) =
        some (pySplit entry_cmd.data, []) := by
  refine ⟨?_, ?_, ?_⟩
  · simp [get_entrypoint_setup, hrt]
  · simp [get_entrypoint_setup, hrt]
  · exact dumps_roundtrip _ fun t ht c hc => hbmp c (pySplit_mem ht c hc)

theorem C3_entrypoint_json_tokens_witness :
    (get_entrypoint_setup lpPip "python train.py --epochs 10" "/home/bob" "local").1 =
        "ENTRYPOINT " ++
          String.mk (dumpsStrList (pySplit "python train.py --epochs 10".data)) ∧
    (get_entrypoint_setup lpPip "python train.py --epochs 10" "/home/bob" "local").2 = [] ∧
    decodeStrArray (dumpsStrList (pySplit "python train.py --epochs 10".data)) =
        some (pySplit "python train.py --epochs 10".data, []) :=
  C3_entrypoint_json_tokens lpPip "python train.py --epochs 10" "/home/bob" "local"
    (by decide) (by decide)

theorem splitCh_frozen_line (T2 J : List Char) (hT2 : ' ' ∉ T2)
    (hJ : ∀ c ∈ J, c ≠ ' ') :
    splitCh ' ' ("RUN".data ++ ' ' :: (T2 ++ ' ' ::
        (("WANDB_ONLY_INCLUDE=".data ++ J) ++ ' ' ::
          ("python".data ++ ' ' :: "_wandb_bootstrap.py".data)))) =
      ["RUN".data, T2, "WANDB_ONLY_INCLUDE=".data ++ J,
       "python".data, "_wandb_bootstrap.py".data] := by
  rw [splitCh_sep_cons ' ' _ _ (by decide)]
  rw [splitCh_sep_cons ' ' _ _ hT2]
  rw [splitCh_sep_cons ' ' _ _ (by
    intro hc
    rcases List.mem_append.mp hc with h | h
    · revert h; decide
    · exact absurd rfl (hJ _ h))]
  rw [splitCh_sep_cons ' ' _ _ (by decide)]
  rw [splitCh_of_no_sep ' ' _ (by decide)]

theorem frozen_run_line_not_pip (T2 J : List Char) (hT2 : ' ' ∉ T2)
    (hT2pip : ("pip".data : List Char) ≠ T2) (hJ : ∀ c ∈ J, c ≠ ' ') :
    isPipInstallLine ("RUN".data ++ ' ' :: (T2 ++ ' ' ::
        (("WANDB_ONLY_INCLUDE=".data ++ J) ++ ' ' ::
          ("python".data ++ ' ' :: "_wandb_bootstrap.py".data)))) = false := by
  unfold isPipInstallLine
  rw [splitCh_frozen_line T2 J hT2 hJ]
  simp [containsSeq, startsWithSeq, pipInstallWords, hT2pip]

/-- C5: when `deps_type` is pip and no `requirements.frozen.txt` exists, the
rendered requirements section of the build-file document contains exactly one
`pip install -r requirements.txt` line and no reference to the bootstrap
script; when `requirements.frozen.txt` does exist, the section copies both the
frozen manifest and `_wandb_bootstrap.py`, runs the bootstrap installer, and
contains no direct `pip install -r requirements.txt` line (given that the
parsed package names contain no space or newline, as `pkg_resources`
requirement names cannot). -/
theorem C5_pip_requirements (lp : LaunchProject) (w : BuildWorld)
    (hdeps : lp.deps_type = DepsType.pip)
    (hnames : ∀ n ∈ w.reqNames, ∀ c ∈ n.data, c ≠ ' ' ∧ c ≠ '\n') :
    (w.frozenExists = false →
      ((docLines (get_requirements_section lp w).1).countP isPipInstallLine = 1 ∧
       ∀ l ∈ docLines (get_requirements_section lp w).1, mentionsBootstrap l = false)) ∧
    (w.frozenExists = true →
      ((docLines (get_requirements_section lp w).1).countP isPipInstallLine = 0 ∧
       "COPY src/requirements.txt src/requirements.frozen.txt _wandb_bootstrap.py .".data
         ∈ docLines (get_requirements_section lp w).1 ∧
       ∃ p, p ++ "python _wandb_bootstrap.py".data
         ∈ docLines (get_requirements_section lp w).1)) := by
  obtain ⟨bx, fz, br, names, cpv, cpm, un, eu⟩ := w
  constructor
  · intro hf
    cases fz with
    | true => simp at hf
    | false =>
      cases bx with
      | false =>
        have hsec : (get_requirements_section lp ⟨false, false, br, names, cpv, cpm, un, eu⟩).1 =
            pipTemplate "src/requirements.txt" "RUN WANDB_DISABLE_CACHE=true"
              "pip install -r requirements.txt" := by
          simp [get_requirements_section, hdeps]
        rw [hsec]
        exact ⟨by decide, by decide⟩
      | true =>
        have hsec : (get_requirements_section lp ⟨true, false, br, names, cpv, cpm, un, eu⟩).1 =
            pipTemplate "src/requirements.txt"
              "RUN --mount=type=cache,mode=0777,target=/root/.cache/pip"
              "pip install -r requirements.txt" := by
          simp [get_requirements_section, hdeps]
        rw [hsec]
        exact ⟨by decide, by decide⟩
  · intro hf
    cases fz with
    | false => simp at hf
    | true =>
      have hJ : ∀ c ∈ joinSep [','] (names.map fun n => shlexQuoteL n.data),
          c ≠ ' ' ∧ c ≠ '\n' := by
        intro c hc
        rcases mem_join_names hc with h | h | h | ⟨n, hn, hcn⟩
        · subst h; exact ⟨by decide, by decide⟩
        · subst h; exact ⟨by decide, by decide⟩
        · subst h; exact ⟨by decide, by decide⟩
        · exact hnames n hn c hcn
      cases br with
      | false =>
        cases bx with
        | false =>
          have hsec : (get_requirements_section lp ⟨false, true, false, names, cpv, cpm, un, eu⟩).1 =
              pipTemplate
                "src/requirements.txt src/requirements.frozen.txt _wandb_bootstrap.py"
                "RUN WANDB_DISABLE_CACHE=true" "python _wandb_bootstrap.py" := by
            refine String.ext ?_
            simp [get_requirements_section, hdeps, _parse_existing_requirements,
              pipTemplate, String.data_append]
          rw [hsec]
          refine ⟨by decide, by decide, ⟨"RUN WANDB_DISABLE_CACHE=true ".data, by decide⟩⟩
        | true =>
          have hsec : (get_requirements_section lp ⟨true, true, false, names, cpv, cpm, un, eu⟩).1 =
              pipTemplate
                "src/requirements.txt src/requirements.frozen.txt _wandb_bootstrap.py"
                "RUN --mount=type=cache,mode=0777,target=/root/.cache/pip"
                "python _wandb_bootstrap.py" := by
            refine String.ext ?_
            simp [get_requirements_section, hdeps, _parse_existing_requirements,
              pipTemplate, String.data_append]
          rw [hsec]
          refine ⟨by decide, by decide,
            ⟨"RUN --mount=type=cache,mode=0777,target=/root/.cache/pip ".data, by decide⟩⟩
      | true =>
        cases bx with
        | false =>
          have hsec : (get_requirements_section lp ⟨false, true, true, names, cpv, cpm, un, eu⟩).1 =
              pipTemplate
                "src/requirements.txt src/requirements.frozen.txt _wandb_bootstrap.py"
                "RUN WANDB_DISABLE_CACHE=true"
                ("WANDB_ONLY_INCLUDE=" ++
                  String.mk (joinSep [','] (names.map fun n => shlexQuoteL n.data)) ++
                  " " ++ "python _wandb_bootstrap.py") := by
            refine String.ext ?_
            simp [get_requirements_section, hdeps, _parse_existing_requirements,
              pipTemplate, String.data_append]
          have hpin : '\n' ∉ ("WANDB_ONLY_INCLUDE=" ++
              String.mk (joinSep [','] (names.map fun n => shlexQuoteL n.data)) ++
              " " ++ "python _wandb_bootstrap.py").data := by
            simp only [String.data_append]
            intro hc
            rcases List.mem_append.mp hc with hc' | hc'
            · rcases List.mem_append.mp hc' with hc'' | hc''
              · rcases List.mem_append.mp hc'' with hc3 | hc3
                · revert hc3; decide
                · exact absurd rfl (hJ _ hc3).2
              · revert hc''; decide
            · revert hc'; decide
          have hline : ("RUN WANDB_DISABLE_CACHE=true".data ++ ' ' ::
              ("WANDB_ONLY_INCLUDE=" ++
                String.mk (joinSep [','] (names.map fun n => shlexQuoteL n.data)) ++
                " " ++ "python _wandb_bootstrap.py").data) =
              "RUN".data ++ ' ' :: ("WANDB_DISABLE_CACHE=true".data ++ ' ' ::
                (("WANDB_ONLY_INCLUDE=".data ++
                    joinSep [','] (names.map fun n => shlexQuoteL n.data)) ++ ' ' ::
                  ("python".data ++ ' ' :: "_wandb_bootstrap.py".data))) := by
            simp [String.data_append]
          have h6 := frozen_run_line_not_pip "WANDB_DISABLE_CACHE=true".data
            (joinSep [','] (names.map fun n => shlexQuoteL n.data))
            (by decide) (by decide) (fun c hc => (hJ c hc).1)
          rw [hsec, docLines_pipTemplate _ _ _ (by decide) (by decide) hpin, hline]
          refine ⟨?_, ?_, ?_⟩
          · simp only [List.countP_cons, List.countP_nil, h6,
              show isPipInstallLine ([] : List Char) = false from by decide,
              show isPipInstallLine "RUN python -m venv /env".data = false from by decide,
              show isPipInstallLine "# make sure we install into the env".data = false
                from by decide,
              show isPipInstallLine "ENV PATH=\"/env/bin:$PATH\"".data = false from by decide,
              show isPipInstallLine ("COPY ".data ++
                "src/requirements.txt src/requirements.frozen.txt _wandb_bootstrap.py".data ++
                " .".data) = false from by decide]
            simp
          · simp only [List.mem_cons]
            exact Or.inr (Or.inr (Or.inr (Or.inr (Or.inl (by decide)))))
          · refine ⟨"RUN".data ++ ' ' :: ("WANDB_DISABLE_CACHE=true".data ++ ' ' ::
              (("WANDB_ONLY_INCLUDE=".data ++
                  joinSep [','] (names.map fun n => shlexQuoteL n.data)) ++ [' '])), ?_⟩
            simp only [List.mem_cons]
            refine Or.inr (Or.inr (Or.inr (Or.inr (Or.inr (Or.inl ?_)))))
            simp
        | true =>
          have hsec : (get_requirements_section lp ⟨true, true, true, names, cpv, cpm, un, eu⟩).1 =
              pipTemplate
                "src/requirements.txt src/requirements.frozen.txt _wandb_bootstrap.py"
                "RUN --mount=type=cache,mode=0777,target=/root/.cache/pip"
                ("WANDB_ONLY_INCLUDE=" ++
                  String.mk (joinSep [','] (names.map fun n => shlexQuoteL n.data)) ++
                  " " ++ "python _wandb_bootstrap.py") := by
            refine String.ext ?_
            simp [get_requirements_section, hdeps, _parse_existing_requirements,
              pipTemplate, String.data_append]
          have hpin : '\n' ∉ ("WANDB_ONLY_INCLUDE=" ++
              String.mk (joinSep [','] (names.map fun n => shlexQuoteL n.data)) ++
              " " ++ "python _wandb_bootstrap.py").data := by
            simp only [String.data_append]
            intro hc
            rcases List.mem_append.mp hc with hc' | hc'
            · rcases List.mem_append.mp hc' with hc'' | hc''
              · rcases List.mem_append.mp hc'' with hc3 | hc3
                · revert hc3; decide
                · exact absurd rfl (hJ _ hc3).2
              · revert hc''; decide
            · revert hc'; decide
          have hline : ("RUN --mount=type=cache,mode=0777,target=/root/.cache/pip".data ++ ' ' ::
              ("WANDB_ONLY_INCLUDE=" ++
                String.mk (joinSep [','] (names.map fun n => shlexQuoteL n.data)) ++
                " " ++ "python _wandb_bootstrap.py").data) =
              "RUN".data ++ ' ' ::
                ("--mount=type=cache,mode=0777,target=/root/.cache/pip".data ++ ' ' ::
                (("WANDB_ONLY_INCLUDE=".data ++
                    joinSep [','] (names.map fun n => shlexQuoteL n.data)) ++ ' ' ::
                  ("python".data ++ ' ' :: "_wandb_bootstrap.py".data))) := by
            simp [String.data_append]
          have h6 := frozen_run_line_not_pip
            "--mount=type=cache,mode=0777,target=/root/.cache/pip".data
            (joinSep [','] (names.map fun n => shlexQuoteL n.data))
            (by decide) (by decide) (fun c hc => (hJ c hc).1)
          rw [hsec, docLines_pipTemplate _ _ _ (by decide) (by decide) hpin, hline]
          refine ⟨?_, ?_, ?_⟩
          · simp only [List.countP_cons, List.countP_nil, h6,
              show isPipInstallLine ([] : List Char) = false from by decide,
              show isPipInstallLine "RUN python -m venv /env".data = false from by decide,
              show isPipInstallLine "# make sure we install into the env".data = false
                from by decide,
              show isPipInstallLine "ENV PATH=\"/env/bin:$PATH\"".data = false from by decide,
              show isPipInstallLine ("COPY ".data ++
                "src/requirements.txt src/requirements.frozen.txt _wandb_bootstrap.py".data ++
                " .".data) = false from by decide]
            simp
          · simp only [List.mem_cons]
            exact Or.inr (Or.inr (Or.inr (Or.inr (Or.inl (by decide)))))
          · refine ⟨"RUN".data ++ ' ' ::
              ("--mount=type=cache,mode=0777,target=/root/.cache/pip".data ++ ' ' ::
              (("WANDB_ONLY_INCLUDE=".data ++
                  joinSep [','] (names.map fun n => shlexQuoteL n.data)) ++ [' '])), ?_⟩
            simp only [List.mem_cons]
            refine Or.inr (Or.inr (Or.inr (Or.inr (Or.inr (Or.inl ?_)))))
            simp

theorem C5_pip_requirements_witness :
    (worldFull.frozenExists = false →
      ((docLines (get_requirements_section lpPip worldFull).1).countP isPipInstallLine = 1 ∧
       ∀ l ∈ docLines (get_requirements_section lpPip worldFull).1,
         mentionsBootstrap l = false)) ∧
    (worldFull.frozenExists = true →
      ((docLines (get_requirements_section lpPip worldFull).1).countP isPipInstallLine = 0 ∧
       "COPY src/requirements.txt src/requirements.frozen.txt _wandb_bootstrap.py .".data
         ∈ docLines (get_requirements_section lpPip worldFull).1 ∧
       ∃ p, p ++ "python _wandb_bootstrap.py".data
         ∈ docLines (get_requirements_section lpPip worldFull).1)) :=
  C5_pip_requirements lpPip worldFull (by decide) (by decide)

/-- C6: `get_docker_command` returns the remove-on-exit docker run invocation,
one `-e KEY=VALUE` pair per environment variable with key and value each
shell-quoted, one leading dash for single-character flags and two for longer
ones, a value token exactly when the value is not boolean true, and the
shell-quoted image reference last; on the spec's example the env pair is
rendered quoted (`A='1 2'`) and `gpus=all`/`rm=True` render as `--gpus all`
and the bare `--rm`. -/
theorem C6_docker_command (image : String) (env_vars : List (String × String))
    (docker_args : List (String × PyVal)) :
    get_docker_command image env_vars docker_args =
      ["docker", "run", "--rm"] ++
        (env_vars.flatMap fun p => ["-e", shlex_quote p.1 ++ "=" ++ shlex_quote p.2]) ++
        (docker_args.flatMap fun p =>
          match p.2 with
          | .bool true => [(if p.1.length = 1 then "-" else "--") ++ shlex_quote p.1]
          | v => [(if p.1.length = 1 then "-" else "--") ++ shlex_quote p.1,
                  shlex_quote (pyStr v)]) ++
        [shlex_quote image] ∧
    get_docker_command "img" [("A", "1 2")] [("gpus", .str "all"), ("rm", .bool true)] =
      ["docker", "run", "--rm", "-e",
       String.mk ['A', '=', squote, '1', ' ', '2', squote], "--gpus", "all", "--rm", "img"] := by
  exact ⟨rfl, by decide⟩

/-- C10: a docker_args entry with boolean value False is rendered as the flag
(one dash for a single-character name, two otherwise) followed by the value
token `False`; it is neither a bare flag nor omitted. -/
theorem C10_false_boolean_flag (image : String) (env_vars : List (String × String))
    (name : String) :
    get_docker_command image env_vars [(name, PyVal.bool false)] =
      ["docker", "run", "--rm"] ++
        (env_vars.flatMap fun p => ["-e", shlex_quote p.1 ++ "=" ++ shlex_quote p.2]) ++
        [(if name.length = 1 then "-" else "--") ++ shlex_quote name, "False"] ++
        [shlex_quote image] ∧
    get_docker_command "img" [] [("d", .bool false), ("detach", .bool false)] =
      ["docker", "run", "--rm", "-d", "False", "--detach", "False", "img"] := by
  constructor
  · simp [get_docker_command, pyStr, show shlex_quote "False" = "False" from by decide]
  · decide

/-- C8: `construct_local_image_uri` returns the base name with every space
replaced by a hyphen (default `wandb-launch` when the name is absent or
empty), tagged `:<first seven characters of the revision hash><runID>` when a
revision is discoverable and exactly `:<runID>` when it is not (an absent or
empty `last_commit` being Python-falsy). -/
theorem C8_image_uri (lp : LaunchProject) (gc : Option String) :
    construct_local_image_uri lp gc =
      (match lp.image_name with
       | some s => if s.isEmpty then "wandb-launch" else pyReplaceChar s ' ' '-'
       | none => "wandb-launch") ++
      (match gc with
       | some c => if c.isEmpty then ":" ++ lp.run_id else ":" ++ c.take 7 ++ lp.run_id
       | none => ":" ++ lp.run_id) ∧
    _get_docker_image_uri (some "my proj") (some "abcdef0123") "R1" = "my-proj:abcdef0R1" ∧
    _get_docker_image_uri none none "R1" = "wandb-launch:R1" := by
  refine ⟨rfl, by decide, by decide⟩

/-- C2 (code bug): after a successful engine build, `os.remove` is applied to
the build-context path, which `tempfile.mkdtemp` created as a directory, so
the removal always fails and only an info-level message is logged — the
directory is never deleted; after a failed build the `LaunchError` is raised
before the cleanup statement, so no removal is even attempted.  This theorem
evaluates the embedded tail of `generate_docker_image` on both outcomes
(result, removal attempted, directory deleted, log records). -/
theorem C2_cleanup_behavior :
    os_remove true = .error PyExc.isADirectoryError ∧
    generate_docker_image_run (.ok "img:1") =
      (.ok "img:1", true, false,
       [("info", "Temporary docker context file %s was not deleted.")]) ∧
    generate_docker_image_run (.error "boom") =
      (.error (.launchError "Error communicating with docker client: boom"),
       false, false, []) := by
  exact ⟨rfl, rfl, rfl⟩

/-- C1 (amended): `docker_image_exists` returns true exactly when the inspect
invocation succeeds, its output parses as JSON, and element 0 of the parsed
value can be taken (for an array: it is nonempty — a singleton is not
required), in which case that element is stored in the cache; an invocation or
JSON-decode failure stores nothing and yields false, or propagates the
original failure when `should_raise`; an element-0 failure (e.g. an empty
array) propagates unconditionally and stores nothing.  Stated as equality
with `inspectExistsModel`, the definition written from the amended claim. -/
theorem C1_exists_amended (engine : String → Except String String)
    (loads : String → Except String PyJson) (cache : Cache) (img : String) (sr : Bool) :
    docker_image_exists engine loads cache img sr =
      inspectExistsModel engine loads cache img sr := by
  unfold docker_image_exists inspectExistsModel inspectAttempt
  cases he : engine img with
  | error m => cases sr <;> simp [he, isCaughtExc]
  | ok data =>
    cases hl : loads data with
    | error m => cases sr <;> simp [he, hl, isCaughtExc]
    | ok parsed =>
      cases parsed with
      | null => simp [he, hl, index0, isCaughtExc]
      | bool b => simp [he, hl, index0, isCaughtExc]
      | num n => simp [he, hl, index0, isCaughtExc]
      | str s => cases hd : s.data <;> simp [he, hl, index0, hd, isCaughtExc]
      | arr es => cases es <;> simp [he, hl, index0, isCaughtExc]
      | obj fs => simp [he, hl, index0, isCaughtExc]

/-- C1 counterexample: an engine response parsing as the two-element array
`[1, 2]` makes the call return true (caching element 0), although the output
did not parse as a singleton JSON array — refuting "returns true exactly when
the output parses as a singleton JSON array". -/
theorem C1_exists_counterexample :
    (docker_image_exists engineTwo loadsTwo emptyCache "img" false).1 = .ok true ∧
    (∀ j, loadsTwo "RESP2" ≠ .ok (PyJson.arr [j])) ∧
    (docker_image_exists engineTwo loadsTwo emptyCache "img" false).2.1 "img" =
      some (PyJson.num 1) := by
  refine ⟨rfl, ?_, rfl⟩
  intro j h
  simp [loadsTwo] at h

/-- C9 (amended): after a successful `docker_image_exists` call whose parsed
record for the identifier is not JSON null, a subsequent
`docker_image_inspect` for the same identifier returns the cached record with
the cache unchanged and zero new engine invocations. -/
theorem C9_cached_inspect (engine : String → Except String String)
    (loads : String → Except String PyJson) (c0 c : Cache) (img : String)
    (sr : Bool) (n : Nat) (j : PyJson)
    (_hex : docker_image_exists engine loads c0 img sr = (.ok true, c, n))
    (hc : c img = some j) (hnn : j ≠ PyJson.null) :
    docker_image_inspect engine loads c img = (.ok j, c, 0) := by
  have hnone : cachedIsNone c img = false := by
    unfold cachedIsNone
    rw [hc]
    cases j <;> simp at hnn ⊢
  unfold docker_image_inspect
  rw [hnone]
  simp [hc]

theorem C9_cached_inspect_witness :
    docker_image_inspect engineObj loadsObj cacheObj "img" =
      (.ok (PyJson.obj []), cacheObj, 0) :=
  C9_cached_inspect engineObj loadsObj emptyCache cacheObj "img" false 1 (PyJson.obj [])
    rfl rfl (fun h => PyJson.noConfusion h)

/-- C9 counterexample: a successful `exists()` whose inspect response parses
as `[null]` stores JSON null; the subsequent `docker_image_inspect` finds the
cached slot `is None` and performs a fresh engine invocation (count 1, not 0),
refuting "returns the previously parsed record without a new engine
invocation" as stated. -/
theorem C9_counterexample :
    (docker_image_exists engineNull loadsNull emptyCache "img" false).1 = .ok true ∧
    (docker_image_exists engineNull loadsNull emptyCache "img" false).2.1 "img" =
      some PyJson.null ∧
    (docker_image_inspect engineNull loadsNull cacheNull "img").2.2 = 1 := by
  exact ⟨rfl, rfl, rfl⟩

/-- C4 (amended): on macOS (`sys.platform == "darwin"`), for every configured
base URL satisfying the loopback predicate and splitting into exactly three
colon-separated parts, `get_env_vars_dict` emits `WANDB_BASE_URL` rewritten to
`http://host.docker.internal:<original port>`; on other platforms the local
branch is not taken. -/
theorem C4_loopback_rewrite (baseUrl apiKey cfgJson artsJson : String)
    (lp : LaunchProject) (isLocal isDev : String → Bool) (a b port : List Char)
    (hl : isLocal baseUrl = true)
    (hsplit : splitCh ':' baseUrl.data = [a, b, port]) :
    ∃ rest, get_env_vars_dict baseUrl apiKey lp cfgJson artsJson "darwin" isLocal isDev =
      .ok (("WANDB_BASE_URL", "http://host.docker.internal:" ++ String.mk port) :: rest) := by
  unfold get_env_vars_dict
  rw [hl]
  simp only [hsplit, decide_True, Bool.and_true, if_true, ite_true]
  exact ⟨_, rfl⟩

theorem C4_loopback_rewrite_witness :
    ∃ rest, get_env_vars_dict "http://localhost:9001" "k" lpPip "cfg" "arts" "darwin"
        IsWandbLocalUri (fun _ => false) =
      .ok (("WANDB_BASE_URL", "http://host.docker.internal:" ++
            String.mk "9001".data) :: rest) :=
  C4_loopback_rewrite "http://localhost:9001" "k" "cfg" "arts" lpPip
    IsWandbLocalUri (fun _ => false) "http".data "//localhost".data "9001".data
    (by decide) (by decide)

/-- C4 counterexample: the rewrite is conditioned on `sys.platform ==
"darwin"`; on `linux` the same loopback base URL is emitted unrewritten,
refuting the claim as stated for every invoking host. -/
theorem C4_counterexample :
    IsWandbLocalUri "http://127.0.0.1:8080" = true ∧
    get_env_vars_dict "http://127.0.0.1:8080" "k" lpPip "cfg" "arts" "linux"
        IsWandbLocalUri (fun _ => false) =
      .ok [("WANDB_BASE_URL", "http://127.0.0.1:8080"), ("WANDB_API_KEY", "k"),
           ("WANDB_PROJECT", "proj"), ("WANDB_ENTITY", "ent"), ("WANDB_LAUNCH", "True"),
           ("WANDB_RUN_ID", "run1"), ("WANDB_CONFIG", "cfg"),
           ("WANDB_ARTIFACTS", "arts")] := by
  exact ⟨by decide, rfl⟩

/-- C7 (amended): for the sagemaker backend kind, rendering writes the
resolved entrypoint command to the auxiliary script `train` in the project
directory (which the build-context assembler then copies into the context, and
which the rendered build file itself marks executable), and the rendered
entrypoint instruction references that script rather than an inline command;
the full I/O trace of rendering is: the buildx probe, the lock-file existence
check for pip projects (plus, when the lock file is present, the existence
check and read of the unlocked manifest), and the script write — nothing
else. -/
theorem C7_sagemaker_render (lp : LaunchProject) (entry_cmd : String) (w : BuildWorld) :
    (generate_dockerfile lp entry_cmd "sagemaker" w).2 =
      ((match lp.deps_type with
        | .pip =>
          [Event.probeBuildx,
           Event.statFile (lp.project_dir ++ "/requirements.frozen.txt")] ++
            (if w.frozenExists then
              (if w.baseReqExists then
                [Event.statFile (lp.project_dir ++ "/requirements.txt"),
                 Event.readFile (lp.project_dir ++ "/requirements.txt")]
               else [Event.statFile (lp.project_dir ++ "/requirements.txt")])
             else [])
        | _ => [Event.probeBuildx]) ++
       [Event.writeFile (lp.project_dir ++ "/train") entry_cmd]) ∧
    ∃ a b, (generate_dockerfile lp entry_cmd "sagemaker" w).1 =
      a ++ sagemakerEntrypointTemplate ("/home/" ++ w.username) ++ b := by
  have hdu : (get_docker_user lp "sagemaker" w).1 = w.username := by
    unfold get_docker_user
    split <;> rfl
  constructor
  · obtain ⟨bx, fz, br, names, cpv, cpm, un, eu⟩ := w
    cases hd : lp.deps_type <;> cases fz <;> cases br <;>
      simp [generate_dockerfile, get_requirements_section, hd,
        _parse_existing_requirements, get_entrypoint_setup]
  · unfold generate_dockerfile
    simp only [get_entrypoint_setup, if_pos, hdu]
    exact ⟨_, _, rfl⟩

/-- C7 counterexample: rendering performs I/O other than reading the
dependency-lock file: for a pip project whose lock file is present, the trace
contains the buildx capability probe and a read of the unlocked
`requirements.txt` manifest (a different file from the lock file
`requirements.frozen.txt`). -/
theorem C7_render_io_counterexample :
    Event.probeBuildx ∈ (generate_dockerfile lpPip "python run.py" "sagemaker" worldFull).2 ∧
    Event.readFile "/proj/requirements.txt"
      ∈ (generate_dockerfile lpPip "python run.py" "sagemaker" worldFull).2 ∧
    ("/proj/requirements.txt" : String) ≠ "/proj/requirements.frozen.txt" := by
  refine ⟨by decide, by decide, by decide⟩
